import Mathlib

/-!
Shallow embedding of the client-side authentication logic of the
Auth-Supabase repository: the auth reducer and state machine of
src/context/AuthContext.tsx, the rate limiter of src/utils/security.ts,
the cross-tab sync hook (useSessionSync), the route guard
(ProtectedRoute) and the login page submit handler (Login.tsx).
Asynchronous provider calls are modelled by passing their results in as
an explicit environment; side effects (provider calls, broadcasts,
navigation, storage writes) are collected in an effect trace.
-/

namespace AuthApp

/-- The provider (Supabase) user object, as far as this code reads it:
an id, a possibly absent email, and the email-confirmation timestamp.
Free-form metadata fields are not read by any code path under study. -/
structure SupabaseUser where
  id : String
  email : Option String
  emailConfirmedAt : Option String
deriving Repr, DecidableEq

/-- The local User type produced by mapSupabaseUser. -/
structure User where
  id : String
  email : String
deriving Repr, DecidableEq

/-- The provider session object; the code only reads its user field. -/
structure Session where
  user : Option SupabaseUser
deriving Repr, DecidableEq

/-- mapSupabaseUser from AuthContext.tsx: null when the input or its
email is absent. -/
def mapSupabaseUser : Option SupabaseUser → Option User
  | none => none
  | some u =>
    match u.email with
    | none => none
    | some e => some { id := u.id, email := e }

/-- The AuthState held by the reducer. -/
structure AuthState where
  user : Option User
  session : Option Session
  isAuthenticated : Bool
  isLoading : Bool
  error : Option String
deriving Repr, DecidableEq

/-- The reducer actions of AuthContext.tsx (SET_SESSION_ID is declared in
the action type there but has no reducer case, so it falls through to the
default branch). -/
inductive AuthAction where
  | SET_USER (payload : Option User)
  | SET_SESSION (payload : Option Session)
  | SET_LOADING (payload : Bool)
  | SET_ERROR (payload : Option String)
  | SET_SESSION_ID (payload : Option String)
deriving Repr, DecidableEq

/-- authReducer from AuthContext.tsx: SET_USER derives isAuthenticated
from the truthiness of the payload. -/
def authReducer (state : AuthState) (action : AuthAction) : AuthState :=
  match action with
  | .SET_USER payload =>
      { state with user := payload, isAuthenticated := payload.isSome }
  | .SET_SESSION payload => { state with session := payload }
  | .SET_LOADING payload => { state with isLoading := payload }
  | .SET_ERROR payload => { state with error := payload }
  | .SET_SESSION_ID _ => state

/-- initialState from AuthContext.tsx. -/
def initialState : AuthState :=
  { user := none, session := none, isAuthenticated := false
    isLoading := false, error := none }

end AuthApp

namespace AuthApp

/-- C5: starting from the initial state, every state reachable by any
sequence of reducer actions satisfies isAuthenticated = (user is
non-null). -/
theorem reducer_isAuthenticated_invariant (actions : List AuthAction) :
    (actions.foldl authReducer initialState).isAuthenticated
      = (actions.foldl authReducer initialState).user.isSome := by
  suffices h : ∀ (s : AuthState), s.isAuthenticated = s.user.isSome →
      (actions.foldl authReducer s).isAuthenticated
        = (actions.foldl authReducer s).user.isSome by
    exact h initialState rfl
  induction actions with
  | nil => intro s hs; simpa using hs
  | cons a rest ih =>
      intro s hs
      simp only [List.foldl_cons]
      apply ih
      cases a <;> simp [authReducer, hs]

end AuthApp

namespace AuthApp

/-- Cross-tab message types recognized by useSessionSync. -/
inductive MsgType where
  | LOGOUT
  | LOGIN
  | AUTH_CHANGE
  | PROFILE_UPDATE
  | SETTINGS_UPDATE
deriving Repr, DecidableEq

/-- Observable side effects of the orchestration code: provider calls,
bookkeeping writes, cross-tab broadcasts, navigation and the
key-value-store fallback operations. -/
inductive Effect where
  | signInWithPassword (email password : String)
  | signOutCall
  | getSessionCall
  | listFactorsCall
  | getAALCall
  | createSessionCall (userId : String)
  | logActivityCall (userId eventType : String)
  | broadcastMsg (t : MsgType)
  | refreshSessionCall
  | navigate (dest : String)
  | reload
  | postMessage (t : MsgType)
  | setItem (key value : String)
  | removeItem (key : String)
deriving Repr, DecidableEq

/-- The per-tab state of the AuthProvider: the reducer state plus the
currentSessionId useState cell. -/
structure TabState where
  auth : AuthState
  currentSessionId : Option String
deriving Repr, DecidableEq

/-- logout from AuthContext.tsx lines 573-604. The remote signOut result
is passed in as signOutError (none on success). On an error the function
throws from inside the try block, so the SET_USER / SET_SESSION /
setCurrentSessionId clearing and the LOGOUT broadcast are skipped; the
catch block records the error and rethrows, and the finally block clears
the loading flag. -/
def logout (signOutError : Option String) (st : TabState) :
    Except String Unit × TabState × List Effect :=
  let a1 := authReducer (authReducer st.auth (.SET_LOADING true)) (.SET_ERROR none)
  match signOutError with
  | some e =>
      let a2 := authReducer (authReducer a1 (.SET_ERROR (some e))) (.SET_LOADING false)
      (.error e, { st with auth := a2 }, [Effect.signOutCall])
  | none =>
      let a2 := authReducer (authReducer a1 (.SET_USER none)) (.SET_SESSION none)
      let a3 := authReducer a2 (.SET_LOADING false)
      (.ok (), { st with auth := a3, currentSessionId := none },
        [Effect.signOutCall, Effect.broadcastMsg .LOGOUT])

/-- A sample authenticated tab state used for concrete evaluations. -/
def authedTab : TabState :=
  { auth :=
      { user := some { id := "u1", email := "user@example.com" }
        session := some { user := some { id := "u1"
                                         email := some "user@example.com"
                                         emailConfirmedAt := some "t0" } }
        isAuthenticated := true
        isLoading := false
        error := none }
    currentSessionId := some "s1" }

end AuthApp

namespace AuthApp

/-- C1 counterexample: when the remote sign-out call fails, a run of
logout leaves the local user non-null (the authenticated user survives),
refuting the claim that every run of logout ends with user = null. -/
theorem logout_counterexample :
    ¬ ((logout (some "Network error") authedTab).2.1.auth.user = none) := by
  simp [logout, authReducer, authedTab]

/-- C1 amended: logout clears the local user and session (and hence
isAuthenticated) exactly when the remote sign-out succeeds; when the
remote call returns an error, logout rejects with that error and leaves
user, session and isAuthenticated unchanged, recording the error message
and clearing the loading flag. -/
theorem logout_behavior (signOutError : Option String) (st : TabState) :
    ((logout signOutError st).2.1.auth.user
        = if signOutError.isSome then st.auth.user else none)
  ∧ ((logout signOutError st).2.1.auth.session
        = if signOutError.isSome then st.auth.session else none)
  ∧ ((logout signOutError st).2.1.auth.isAuthenticated
        = if signOutError.isSome then st.auth.isAuthenticated else false)
  ∧ ((logout signOutError st).2.1.auth.error = signOutError)
  ∧ ((logout signOutError st).2.1.auth.isLoading = false)
  ∧ ((logout signOutError st).1
        = match signOutError with
          | some e => Except.error e
          | none => Except.ok ()) := by
  cases signOutError <;> simp [logout, authReducer]

end AuthApp

namespace AuthApp

/-- A registered TOTP factor as returned by mfa.listFactors. -/
structure Factor where
  id : String
  status : String
deriving Repr, DecidableEq

/-- Environment for completeMFALogin: the getSession result, the
currentLevel reported by mfa.getAuthenticatorAssuranceLevel, and the row
id produced by the createSession bookkeeping insert (none on failure). -/
structure MFAEnv where
  session : Option Session
  aalCurrentLevel : Option String
  createSessionRow : Option String
deriving Repr, DecidableEq

/-- completeMFALogin from AuthContext.tsx lines 464-511: throws when no
session user exists, throws when the queried assurance level is not
"aal2", and only after that check dispatches SET_SESSION and SET_USER,
records the session and activity, and broadcasts LOGIN. -/
def completeMFALogin (env : MFAEnv) (st : TabState) :
    Except String Bool × TabState × List Effect :=
  match env.session with
  | none => (.error "No session found", st, [Effect.getSessionCall])
  | some s =>
    match s.user with
    | none => (.error "No session found", st, [Effect.getSessionCall])
    | some u =>
      if env.aalCurrentLevel = some "aal2" then
        let a1 := authReducer (authReducer st.auth (.SET_SESSION (some s)))
        let a2 := a1 (.SET_USER (mapSupabaseUser (some u)))
        let st1 : TabState :=
          match env.createSessionRow with
          | some rid => { st with auth := a2, currentSessionId := some rid }
          | none => { st with auth := a2 }
        (.ok true, st1,
          [Effect.getSessionCall, Effect.getAALCall,
           Effect.createSessionCall u.id, Effect.logActivityCall u.id "login",
           Effect.broadcastMsg .LOGIN])
      else
        (.error "MFA verification incomplete", st,
          [Effect.getSessionCall, Effect.getAALCall])

end AuthApp

namespace AuthApp

/-- C2: whenever the queried authenticator assurance level is not "aal2",
completeMFALogin rejects with an error and leaves the entire auth state
(user, session, everything) unchanged, independently of the verify call
that preceded it. -/
theorem completeMFALogin_requires_aal2 (env : MFAEnv) (st : TabState)
    (h : env.aalCurrentLevel ≠ some "aal2") :
    (∃ e, (completeMFALogin env st).1 = .error e)
  ∧ (completeMFALogin env st).2.1 = st := by
  rcases hs : env.session with _ | s
  · constructor
    · exact ⟨"No session found", by simp [completeMFALogin, hs]⟩
    · simp [completeMFALogin, hs]
  · rcases hu : s.user with _ | u
    · constructor
      · exact ⟨"No session found", by simp [completeMFALogin, hs, hu]⟩
      · simp [completeMFALogin, hs, hu]
    · constructor
      · exact ⟨"MFA verification incomplete", by simp [completeMFALogin, hs, hu, h]⟩
      · simp [completeMFALogin, hs, hu, h]

/-- C2 witness: a concrete run in which the session exists (verify
reported success upstream) but the assurance level is still "aal1". -/
theorem completeMFALogin_requires_aal2_witness :
    (∃ e, (completeMFALogin
        { session := some { user := some { id := "u1"
                                           email := some "user@example.com"
                                           emailConfirmedAt := some "t0" } }
          aalCurrentLevel := some "aal1"
          createSessionRow := some "s2" } authedTab).1 = .error e)
  ∧ (completeMFALogin
        { session := some { user := some { id := "u1"
                                           email := some "user@example.com"
                                           emailConfirmedAt := some "t0" } }
          aalCurrentLevel := some "aal1"
          createSessionRow := some "s2" } authedTab).2.1 = authedTab :=
  completeMFALogin_requires_aal2 _ authedTab (by decide)

end AuthApp

namespace AuthApp

/-- The discriminated result returned by login (needsMFA and factorId are
optional fields in the TS interface, absent unless the MFA branch is
taken). -/
structure LoginResult where
  needsVerification : Bool
  needsMFA : Option Bool
  factorId : Option String
deriving Repr, DecidableEq

/-- Environment for login: the signInWithPassword outcome and the totp
list returned by mfa.listFactors, plus the bookkeeping insert result. -/
structure LoginEnv where
  signInError : Option String
  signInUser : Option SupabaseUser
  signInSession : Option Session
  totpFactors : List Factor
  createSessionRow : Option String
deriving Repr, DecidableEq

/-- login from AuthContext.tsx lines 386-462. Branches in source order:
provider error (rethrown, error recorded); unconfirmed email (remote
sign-out, needsVerification); a verified TOTP factor found (returns
needsMFA and the factor id WITHOUT dispatching a user); otherwise the
no-MFA completion (SET_USER, SET_SESSION, session row, activity log,
LOGIN broadcast). The finally block always clears the loading flag. -/
def login (env : LoginEnv) (email password : String) (st : TabState) :
    Except String LoginResult × TabState × List Effect :=
  let callEff := [Effect.signInWithPassword email password]
  match env.signInError with
  | some e =>
      let a1 := authReducer (authReducer st.auth (.SET_ERROR (some e))) (.SET_LOADING false)
      (.error e, { st with auth := a1 }, callEff)
  | none =>
    match env.signInUser with
    | some u =>
      if u.emailConfirmedAt.isNone then
        let a1 := authReducer st.auth (.SET_LOADING false)
        (.ok { needsVerification := true, needsMFA := none, factorId := none },
          { st with auth := a1 }, callEff ++ [Effect.signOutCall])
      else
        match env.totpFactors.find? (fun f => f.status = "verified") with
        | some f =>
            let a1 := authReducer st.auth (.SET_LOADING false)
            (.ok { needsVerification := false, needsMFA := some true
                   factorId := some f.id },
              { st with auth := a1 }, callEff ++ [Effect.listFactorsCall])
        | none =>
            let a1 := authReducer (authReducer st.auth (.SET_USER (mapSupabaseUser (some u)))) (.SET_SESSION env.signInSession)
            let st1 : TabState :=
              match env.createSessionRow with
              | some rid => { st with auth := a1, currentSessionId := some rid }
              | none => { st with auth := a1 }
            let a2 := authReducer st1.auth (.SET_LOADING false)
            (.ok { needsVerification := false, needsMFA := none, factorId := none },
              { st1 with auth := a2 },
              callEff ++ [Effect.listFactorsCall, Effect.createSessionCall u.id,
                Effect.logActivityCall u.id "login", Effect.broadcastMsg .LOGIN])
    | none =>
        let a1 := authReducer (authReducer st.auth (.SET_USER (mapSupabaseUser none))) (.SET_SESSION env.signInSession)
        let a2 := authReducer a1 (.SET_LOADING false)
        (.ok { needsVerification := false, needsMFA := none, factorId := none },
          { st with auth := a2 }, callEff ++ [Effect.broadcastMsg .LOGIN])

end AuthApp

namespace AuthApp

/-- C3: when the primary factor is accepted, the email is confirmed and a
verified TOTP factor exists, login returns needsMFA = true with that
factor's id, dispatches no user (user field unchanged), and
isAuthenticated stays exactly what it was, hence false when the run
started anonymous. -/
theorem login_mfa_pending (env : LoginEnv) (email password : String)
    (st : TabState) (u : SupabaseUser) (f : Factor)
    (h1 : env.signInError = none) (h2 : env.signInUser = some u)
    (h3 : u.emailConfirmedAt.isSome)
    (h4 : env.totpFactors.find? (fun x => x.status = "verified") = some f) :
    ((login env email password st).1
        = .ok { needsVerification := false, needsMFA := some true
                factorId := some f.id })
  ∧ ((login env email password st).2.1.auth.user = st.auth.user)
  ∧ ((login env email password st).2.1.auth.isAuthenticated
        = st.auth.isAuthenticated)
  ∧ (st.auth.isAuthenticated = false →
        (login env email password st).2.1.auth.isAuthenticated = false) := by
  have h3n : u.emailConfirmedAt.isNone = false := by
    cases hv : u.emailConfirmedAt with
    | none => rw [hv] at h3; simp at h3
    | some v => simp
  refine ⟨?_, ?_, ?_, ?_⟩ <;>
    simp [login, h1, h2, h3n, h4, authReducer]

/-- C3 witness: a concrete primary-valid login with a confirmed email and
one verified TOTP factor, started from the anonymous initial state. -/
theorem login_mfa_pending_witness :
    ((login
        { signInError := none
          signInUser := some { id := "u1", email := some "user@example.com"
                               emailConfirmedAt := some "t0" }
          signInSession := some { user := some { id := "u1"
                                                 email := some "user@example.com"
                                                 emailConfirmedAt := some "t0" } }
          totpFactors := [{ id := "factor1", status := "verified" }]
          createSessionRow := none }
        "user@example.com" "pw"
        { auth := initialState, currentSessionId := none }).1
      = .ok { needsVerification := false, needsMFA := some true
              factorId := some "factor1" })
  ∧ ((login
        { signInError := none
          signInUser := some { id := "u1", email := some "user@example.com"
                               emailConfirmedAt := some "t0" }
          signInSession := some { user := some { id := "u1"
                                                 email := some "user@example.com"
                                                 emailConfirmedAt := some "t0" } }
          totpFactors := [{ id := "factor1", status := "verified" }]
          createSessionRow := none }
        "user@example.com" "pw"
        { auth := initialState, currentSessionId := none }).2.1.auth.isAuthenticated
      = false) := by
  have h := login_mfa_pending
    { signInError := none
      signInUser := some { id := "u1", email := some "user@example.com"
                           emailConfirmedAt := some "t0" }
      signInSession := some { user := some { id := "u1"
                                             email := some "user@example.com"
                                             emailConfirmedAt := some "t0" } }
      totpFactors := [{ id := "factor1", status := "verified" }]
      createSessionRow := none }
    "user@example.com" "pw"
    { auth := initialState, currentSessionId := none }
    { id := "u1", email := some "user@example.com"
      emailConfirmedAt := some "t0" }
    { id := "factor1", status := "verified" }
    rfl rfl (by simp) (by simp)
  exact ⟨h.1, h.2.2.2 rfl⟩

end AuthApp

namespace AuthApp

/-- What the route guard renders: the loading placeholder, a redirect
carrying the originally requested location, or the protected children. -/
inductive RouteResult where
  | loadingView
  | navigateTo (dest fromLoc : String)
  | content
deriving Repr, DecidableEq

/-- Environment for the checkMFAStatus effect of ProtectedRoute: the
getSession outcome, the totp factor list and the assurance level. -/
structure MFACheckEnv where
  getSessionError : Option String
  session : Option Session
  totpFactors : List Factor
  aalCurrentLevel : Option String
deriving Repr, DecidableEq

/-- checkMFAStatus from ProtectedRoute: the value of the mfaVerified
state cell once checking has finished (none when there is no user, since
the cell then keeps its initial null). -/
def checkMFAStatus (user : Option User) (env : MFACheckEnv) : Option Bool :=
  match user with
  | none => none
  | some _ =>
    if env.getSessionError.isSome then some false
    else
      match env.session with
      | none => some false
      | some _ =>
        if env.totpFactors.any (fun f => f.status = "verified") then
          if env.aalCurrentLevel = some "aal2" then some true else some false
        else some true

/-- The render logic of ProtectedRoute: loading placeholder while
isLoading or checking, redirect to /login (preserving the requested
location) when there is no user, redirect to /mfa-verify when the check
concluded mfaVerified = false, otherwise the protected children. -/
def ProtectedRoute (user : Option User) (isLoading checking : Bool)
    (mfaVerified : Option Bool) (location : String) : RouteResult :=
  if isLoading || checking then .loadingView
  else if user.isNone then .navigateTo "/login" location
  else if mfaVerified = some false then .navigateTo "/mfa-verify" location
  else .content

end AuthApp

namespace AuthApp

/-- C4: (1) on a fresh load with a stored session at assurance level
"aal1" and a verified TOTP factor registered, the MFA check concludes
not-verified and the guard redirects to /mfa-verify, not to the
protected content and not to /login; (2) while loading or checking it
renders only the placeholder; (3) with no user it redirects to /login
preserving the requested location. -/
theorem protectedRoute_three_valued_gate :
    (∀ (u : User) (env : MFACheckEnv) (loc : String),
        env.getSessionError = none → env.session.isSome →
        env.totpFactors.any (fun f => f.status = "verified") = true →
        env.aalCurrentLevel = some "aal1" →
        checkMFAStatus (some u) env = some false
        ∧ ProtectedRoute (some u) false false (checkMFAStatus (some u) env) loc
            = .navigateTo "/mfa-verify" loc
        ∧ ProtectedRoute (some u) false false (checkMFAStatus (some u) env) loc
            ≠ .content
        ∧ ProtectedRoute (some u) false false (checkMFAStatus (some u) env) loc
            ≠ .navigateTo "/login" loc)
  ∧ (∀ (user : Option User) (isLoading checking : Bool)
        (mfv : Option Bool) (loc : String), (isLoading || checking) = true →
        ProtectedRoute user isLoading checking mfv loc = .loadingView)
  ∧ (∀ (mfv : Option Bool) (loc : String),
        ProtectedRoute none false false mfv loc
          = .navigateTo "/login" loc) := by
  refine ⟨?_, ?_, ?_⟩
  · intro u env loc h1 h2 h3 h4
    have hchk : checkMFAStatus (some u) env = some false := by
      rcases hs : env.session with _ | s
      · rw [hs] at h2; simp at h2
      · simp [checkMFAStatus, h1, hs, h3, h4]
    refine ⟨hchk, ?_, ?_, ?_⟩ <;> simp [ProtectedRoute, hchk]
  · intro user isLoading checking mfv loc h
    simp [ProtectedRoute, h]
  · intro mfv loc
    simp [ProtectedRoute]

/-- C4 witness: a concrete stored-session reload with one verified TOTP
factor and assurance level "aal1", at location /dashboard. -/
theorem protectedRoute_three_valued_gate_witness :
    (checkMFAStatus (some { id := "u1", email := "user@example.com" })
        { getSessionError := none
          session := some { user := some { id := "u1"
                                           email := some "user@example.com"
                                           emailConfirmedAt := some "t0" } }
          totpFactors := [{ id := "factor1", status := "verified" }]
          aalCurrentLevel := some "aal1" } = some false)
  ∧ (ProtectedRoute (some { id := "u1", email := "user@example.com" })
        false false
        (checkMFAStatus (some { id := "u1", email := "user@example.com" })
          { getSessionError := none
            session := some { user := some { id := "u1"
                                             email := some "user@example.com"
                                             emailConfirmedAt := some "t0" } }
            totpFactors := [{ id := "factor1", status := "verified" }]
            aalCurrentLevel := some "aal1" })
        "/dashboard"
      = .navigateTo "/mfa-verify" "/dashboard")
  ∧ (ProtectedRoute none false false none "/dashboard"
      = .navigateTo "/login" "/dashboard") := by
  have h := protectedRoute_three_valued_gate
  have h1 := h.1 { id := "u1", email := "user@example.com" }
    { getSessionError := none
      session := some { user := some { id := "u1"
                                       email := some "user@example.com"
                                       emailConfirmedAt := some "t0" } }
      totpFactors := [{ id := "factor1", status := "verified" }]
      aalCurrentLevel := some "aal1" }
    "/dashboard" rfl (by simp) (by simp) rfl
  exact ⟨h1.1, h1.2.1, h.2.2 none "/dashboard"⟩

end AuthApp

namespace AuthApp

/-- One entry of the RateLimiter attempts map. -/
structure AttemptRecord where
  count : Nat
  lockedUntil : Option Nat
deriving Repr, DecidableEq

/-- The RateLimiter of src/utils/security.ts: an in-memory map from
identifier to attempt record. Wall-clock time (milliseconds, as produced
by Date.now) is passed explicitly to each operation. -/
structure RateLimiter where
  attempts : String → Option AttemptRecord

/-- maxAttempts from RateLimiter. -/
def maxAttempts : Nat := 5

/-- lockoutDuration from RateLimiter: 15 minutes in milliseconds. -/
def lockoutDuration : Nat := 15 * 60 * 1000

/-- The freshly constructed limiter (new Map()). -/
def RateLimiter.empty : RateLimiter := ⟨fun _ => none⟩

/-- isLocked: false when no record or no stamp; when the stamp has
expired (now strictly past lockedUntil) the record is deleted lazily and
false is returned; otherwise true. Returns the possibly updated map. -/
def RateLimiter.isLocked (rl : RateLimiter) (identifier : String)
    (now : Nat) : Bool × RateLimiter :=
  match rl.attempts identifier with
  | none => (false, rl)
  | some record =>
    match record.lockedUntil with
    | none => (false, rl)
    | some lu =>
      if lu < now then
        (false, ⟨fun i => if i = identifier then none else rl.attempts i⟩)
      else (true, rl)

/-- recordAttempt: on success delete the record; on failure increment the
counter and, once it has reached maxAttempts, stamp lockedUntil to
now + lockoutDuration. -/
def RateLimiter.recordAttempt (rl : RateLimiter) (identifier : String)
    (success : Bool) (now : Nat) : RateLimiter :=
  if success then ⟨fun i => if i = identifier then none else rl.attempts i⟩
  else
    let record := (rl.attempts identifier).getD { count := 0, lockedUntil := none }
    let record := { record with count := record.count + 1 }
    let record :=
      if maxAttempts ≤ record.count then
        { record with lockedUntil := some (now + lockoutDuration) }
      else record
    ⟨fun i => if i = identifier then some record else rl.attempts i⟩

/-- getRemainingTime: seconds until the stamp, rounded up, clamped at 0. -/
def RateLimiter.getRemainingTime (rl : RateLimiter) (identifier : String)
    (now : Nat) : Nat :=
  match rl.attempts identifier with
  | none => 0
  | some record =>
    match record.lockedUntil with
    | none => 0
    | some lu => if lu ≤ now then 0 else (lu - now + 999) / 1000

/-- getAttemptCount from RateLimiter. -/
def RateLimiter.getAttemptCount (rl : RateLimiter) (identifier : String) : Nat :=
  match rl.attempts identifier with
  | none => 0
  | some record => record.count

/-- getRemainingAttempts from RateLimiter. -/
def RateLimiter.getRemainingAttempts (rl : RateLimiter)
    (identifier : String) : Nat :=
  maxAttempts - rl.getAttemptCount identifier

/-- A sequence of recordAttempt(id, false) calls at the given times. -/
def recordFailures (rl : RateLimiter) (identifier : String)
    (times : List Nat) : RateLimiter :=
  times.foldl (fun r t => r.recordAttempt identifier false t) rl

/-- A sequence of isLocked checks at the given times, threading the
lazily-cleaned map through. -/
def isLockedRun (rl : RateLimiter) (identifier : String) :
    List Nat → List Bool × RateLimiter
  | [] => ([], rl)
  | t :: ts =>
    let step := rl.isLocked identifier t
    let rest := isLockedRun step.2 identifier ts
    (step.1 :: rest.1, rest.2)

end AuthApp

namespace AuthApp

theorem recordFailures_nil (rl : RateLimiter) (id : String) :
    recordFailures rl id [] = rl := rfl

theorem recordFailures_five_attempts (id : String) (t1 t2 t3 t4 t5 : Nat) :
    (recordFailures RateLimiter.empty id [t1, t2, t3, t4, t5]).attempts id
      = some { count := 5, lockedUntil := some (t5 + lockoutDuration) } := by
  simp [recordFailures, RateLimiter.recordAttempt, RateLimiter.empty,
    maxAttempts]

theorem isLocked_true_of_le (rl : RateLimiter) (id : String) (c lu now : Nat)
    (heq : rl.attempts id = some { count := c, lockedUntil := some lu })
    (h : now ≤ lu) : rl.isLocked id now = (true, rl) := by
  simp [RateLimiter.isLocked, heq, Nat.not_lt.mpr h]

theorem isLocked_false_of_lt (rl : RateLimiter) (id : String) (c lu now : Nat)
    (heq : rl.attempts id = some { count := c, lockedUntil := some lu })
    (h : lu < now) : (rl.isLocked id now).1 = false := by
  simp [RateLimiter.isLocked, heq, h]

theorem isLockedRun_all_true (id : String) (c lu : Nat) (cs : List Nat) :
    ∀ (rl : RateLimiter),
      rl.attempts id = some { count := c, lockedUntil := some lu } →
      (∀ t ∈ cs, t ≤ lu) →
      isLockedRun rl id cs = (cs.map (fun _ => true), rl) := by
  induction cs with
  | nil => intro rl _ _; simp [isLockedRun]
  | cons a ts ih =>
      intro rl heq hall
      have ha : rl.isLocked id a = (true, rl) :=
        isLocked_true_of_le rl id c lu a heq (hall a (by simp))
      have hrest := ih rl heq (fun t ht => hall t (by simp [ht]))
      simp [isLockedRun, ha, hrest]

end AuthApp

namespace AuthApp

/-- C6: starting from an empty map, fewer than 5 consecutive failures
never lock the identifier; after exactly 5 consecutive failures (the 5th
at time t5) isLocked is true, stays true through every check performed
while no more than 15 minutes (900000 ms) have elapsed since t5, and the
first check strictly after that window returns false. -/
theorem rateLimiter_lockout_window (id : String) (t1 t2 t3 t4 t5 : Nat) :
    (∀ now, ((recordFailures RateLimiter.empty id [t1]).isLocked id now).1
        = false)
  ∧ (∀ now, ((recordFailures RateLimiter.empty id [t1, t2]).isLocked id now).1
        = false)
  ∧ (∀ now, ((recordFailures RateLimiter.empty id [t1, t2, t3]).isLocked
        id now).1 = false)
  ∧ (∀ now, ((recordFailures RateLimiter.empty id [t1, t2, t3, t4]).isLocked
        id now).1 = false)
  ∧ (∀ now, now ≤ t5 + lockoutDuration →
        ((recordFailures RateLimiter.empty id [t1, t2, t3, t4, t5]).isLocked
          id now).1 = true)
  ∧ (∀ cs : List Nat, (∀ t ∈ cs, t ≤ t5 + lockoutDuration) →
        (isLockedRun (recordFailures RateLimiter.empty id [t1, t2, t3, t4, t5])
          id cs).1 = cs.map (fun _ => true))
  ∧ (∀ cs : List Nat, (∀ t ∈ cs, t ≤ t5 + lockoutDuration) →
      ∀ now, t5 + lockoutDuration < now →
        (((isLockedRun
              (recordFailures RateLimiter.empty id [t1, t2, t3, t4, t5])
              id cs).2).isLocked id now).1 = false) := by
  have h5 := recordFailures_five_attempts id t1 t2 t3 t4 t5
  refine ⟨?_, ?_, ?_, ?_, ?_, ?_, ?_⟩
  · intro now
    simp [recordFailures, RateLimiter.recordAttempt, RateLimiter.empty,
      maxAttempts, RateLimiter.isLocked]
  · intro now
    simp [recordFailures, RateLimiter.recordAttempt, RateLimiter.empty,
      maxAttempts, RateLimiter.isLocked]
  · intro now
    simp [recordFailures, RateLimiter.recordAttempt, RateLimiter.empty,
      maxAttempts, RateLimiter.isLocked]
  · intro now
    simp [recordFailures, RateLimiter.recordAttempt, RateLimiter.empty,
      maxAttempts, RateLimiter.isLocked]
  · intro now hle
    rw [isLocked_true_of_le _ id 5 (t5 + lockoutDuration) now h5 hle]
  · intro cs hall
    rw [isLockedRun_all_true id 5 (t5 + lockoutDuration) cs _ h5 hall]
  · intro cs hall now hgt
    rw [isLockedRun_all_true id 5 (t5 + lockoutDuration) cs _ h5 hall]
    exact isLocked_false_of_lt _ id 5 (t5 + lockoutDuration) now h5 hgt

/-- C6 witness: five consecutive failures at times 0..4 ms; checks inside
the window (at 100 ms and at exactly t5 + 900000) report locked, the
first check after the window (t5 + 900001) reports unlocked, and four
failures alone do not lock. -/
theorem rateLimiter_lockout_window_witness :
    (((recordFailures RateLimiter.empty "a@x.com" [0, 1, 2, 3]).isLocked
        "a@x.com" 100).1 = false)
  ∧ ((isLockedRun (recordFailures RateLimiter.empty "a@x.com" [0, 1, 2, 3, 4])
        "a@x.com" [100, 4 + lockoutDuration]).1 = [true, true])
  ∧ ((((isLockedRun
          (recordFailures RateLimiter.empty "a@x.com" [0, 1, 2, 3, 4])
          "a@x.com" [100, 4 + lockoutDuration]).2).isLocked "a@x.com"
        (4 + lockoutDuration + 1)).1 = false) := by
  have h := rateLimiter_lockout_window "a@x.com" 0 1 2 3 4
  refine ⟨h.2.2.2.1 100, ?_, ?_⟩
  · have := h.2.2.2.2.2.1 [100, 4 + lockoutDuration]
      (by intro t ht; simp [lockoutDuration] at ht ⊢; omega)
    simpa using this
  · exact h.2.2.2.2.2.2 [100, 4 + lockoutDuration]
      (by intro t ht; simp [lockoutDuration] at ht ⊢; omega)
      (4 + lockoutDuration + 1) (by omega)

end AuthApp

namespace AuthApp

/-- C10: when an identifier already has a record at or above the
threshold of 5 failures, every further failed attempt re-stamps its
lockout expiry to the time of that attempt plus 15 minutes, sliding the
window forward instead of keeping the original expiry. -/
theorem recordAttempt_restamps_lockout (rl : RateLimiter) (id : String)
    (c : Nat) (lu : Option Nat) (now : Nat)
    (heq : rl.attempts id = some { count := c, lockedUntil := lu })
    (hc : maxAttempts ≤ c) :
    (rl.recordAttempt id false now).attempts id
      = some { count := c + 1, lockedUntil := some (now + lockoutDuration) } := by
  have hc1 : maxAttempts ≤ c + 1 := Nat.le_succ_of_le hc
  simp [RateLimiter.recordAttempt, heq, hc1]

/-- C10 witness: a record with 5 failures stamped to expire at 1000 ms;
a further failure at time 500000 moves the expiry to 500000 + 900000. -/
theorem recordAttempt_restamps_lockout_witness :
    ((RateLimiter.mk (fun i =>
        if i = "a@x.com"
        then some { count := 5, lockedUntil := some 1000 }
        else none)).recordAttempt "a@x.com" false 500000).attempts "a@x.com"
      = some { count := 6, lockedUntil := some (500000 + lockoutDuration) } :=
  recordAttempt_restamps_lockout
    (RateLimiter.mk (fun i =>
      if i = "a@x.com"
      then some { count := 5, lockedUntil := some 1000 }
      else none))
    "a@x.com" 5 (some 1000) 500000 (by simp) (by simp [maxAttempts])

end AuthApp

namespace AuthApp

/-- The onMessage callback that AuthContext.tsx (lines 107-117) passes to
useSessionSync: LOGOUT clears user, session and currentSessionId; LOGIN
triggers refreshSession; everything else is ignored. It never calls
broadcast. -/
def authOnMessage (msg : MsgType) (st : TabState) : TabState × List Effect :=
  match msg with
  | .LOGOUT =>
      let a1 := authReducer (authReducer st.auth (.SET_USER none)) (.SET_SESSION none)
      ({ st with auth := a1, currentSessionId := none }, [])
  | .LOGIN => (st, [Effect.refreshSessionCall])
  | _ => (st, [])

/-- handleMessage from useSessionSync (part_003 lines 52-82), as wired in
the app: it first runs the provided onMessage callback (the AuthContext
one above) and then performs the type-specific handling: LOGOUT
navigates to /login, LOGIN navigates to /dashboard only when the tab is
currently showing /login, AUTH_CHANGE reloads, the rest do nothing. -/
def handleMessage (msg : MsgType) (pathname : String) (st : TabState) :
    TabState × List Effect :=
  let cb := authOnMessage msg st
  let typeEffects : List Effect :=
    match msg with
    | .LOGOUT => [Effect.navigate "/login"]
    | .LOGIN => if pathname = "/login" then [Effect.navigate "/dashboard"] else []
    | .AUTH_CHANGE => [Effect.reload]
    | _ => []
  (cb.1, cb.2 ++ typeEffects)

end AuthApp

namespace AuthApp

/-- C8: receiving a LOGOUT broadcast clears user, session and
currentSessionId (so the state is anonymous), issues the redirect to
/login, and emits no broadcast of its own (no echo); and when the tab was
already anonymous the handler leaves the state exactly unchanged. -/
theorem handleMessage_logout_no_echo (pathname : String) (st : TabState) :
    ((handleMessage .LOGOUT pathname st).1.auth.user = none)
  ∧ ((handleMessage .LOGOUT pathname st).1.auth.session = none)
  ∧ ((handleMessage .LOGOUT pathname st).1.currentSessionId = none)
  ∧ ((handleMessage .LOGOUT pathname st).1.auth.isAuthenticated = false)
  ∧ (∀ t : MsgType, Effect.broadcastMsg t ∉ (handleMessage .LOGOUT pathname st).2)
  ∧ (Effect.navigate "/login" ∈ (handleMessage .LOGOUT pathname st).2)
  ∧ (st.auth.user = none → st.auth.session = none →
      st.auth.isAuthenticated = false → st.currentSessionId = none →
      (handleMessage .LOGOUT pathname st).1 = st) := by
  refine ⟨?_, ?_, ?_, ?_, ?_, ?_, ?_⟩
  · simp [handleMessage, authOnMessage, authReducer]
  · simp [handleMessage, authOnMessage, authReducer]
  · simp [handleMessage, authOnMessage, authReducer]
  · simp [handleMessage, authOnMessage, authReducer]
  · intro t; simp [handleMessage, authOnMessage, authReducer]
  · simp [handleMessage, authOnMessage, authReducer]
  · intro h1 h2 h3 h4
    obtain ⟨⟨u, s, ia, il, er⟩, csid⟩ := st
    simp only at h1 h2 h3 h4
    subst h1 h2 h3 h4
    simp [handleMessage, authOnMessage, authReducer]

/-- C8 witness: receiving LOGOUT in an authenticated tab clears the user
and does not re-broadcast; receiving it again in the now-anonymous tab is
a no-op on the state. -/
theorem handleMessage_logout_no_echo_witness :
    ((handleMessage .LOGOUT "/dashboard" authedTab).1.auth.user = none)
  ∧ (∀ t : MsgType,
      Effect.broadcastMsg t ∉ (handleMessage .LOGOUT "/dashboard" authedTab).2)
  ∧ ((handleMessage .LOGOUT "/dashboard"
        (handleMessage .LOGOUT "/dashboard" authedTab).1).1
      = (handleMessage .LOGOUT "/dashboard" authedTab).1) := by
  have h1 := handleMessage_logout_no_echo "/dashboard" authedTab
  have h2 := handleMessage_logout_no_echo "/dashboard"
    (handleMessage .LOGOUT "/dashboard" authedTab).1
  exact ⟨h1.1, h1.2.2.2.2.1,
    h2.2.2.2.2.2.2 h1.1 h1.2.1 h1.2.2.2.1 h1.2.2.1⟩

end AuthApp

namespace AuthApp

/-- broadcast from useSessionSync (part_003 lines 29-49): posts on the
BroadcastChannel when one could be constructed; otherwise falls back to
writing the serialized tagged message to the reserved localStorage key
"auth_sync" and immediately removing it. -/
def broadcast (channelAvailable : Bool) (serialize : MsgType → String)
    (msg : MsgType) : List Effect :=
  (if channelAvailable then [Effect.postMessage msg] else [])
    ++ (if channelAvailable then []
        else [Effect.setItem "auth_sync" (serialize msg),
              Effect.removeItem "auth_sync"])

/-- A storage event as seen by the fallback listener. -/
structure StorageEvent where
  key : String
  newValue : Option String
deriving Repr, DecidableEq

/-- handleStorageChange from useSessionSync (part_003 lines 90-104): on
an event for the "auth_sync" key with a non-null newValue it parses the
JSON payload inside a try block; the lines that would forward the parsed
message to handleMessage are commented out in the source, so no message
is ever handed on (the returned list is the messages forwarded to the
message handler). A parse failure is only logged. -/
def handleStorageChange (parse : String → Option MsgType)
    (ev : StorageEvent) : List MsgType :=
  if ev.key = "auth_sync" then
    match ev.newValue with
    | some v =>
      match parse v with
      | some _ => []
      | none => []
    | none => []
  else []

end AuthApp

namespace AuthApp

/-- C9 counterexample: with the broadcast transport unavailable, a LOGOUT
message delivered through the storage fallback to a tab that is
listening (its storage handler runs and even parses the payload
successfully) still never reaches the message handler: the handler
forwards nothing. -/
theorem storage_fallback_counterexample :
    MsgType.LOGOUT ∉
      handleStorageChange (fun _ => some MsgType.LOGOUT)
        { key := "auth_sync", newValue := some "logout-payload" } := by
  simp [handleStorageChange]

/-- C9 amended: when BroadcastChannel is unavailable, broadcast(message)
does write the tagged message to the reserved key "auth_sync" and
immediately removes it; but the receiving side's storage listener only
parses the delivered value and never forwards it to the message handler
(the dispatch is commented out), so the message reaches no onMessage
callback even in a tab that is listening at delivery time. -/
theorem storage_fallback_behavior (serialize : MsgType → String)
    (msg : MsgType) :
    (broadcast false serialize msg
        = [Effect.setItem "auth_sync" (serialize msg),
           Effect.removeItem "auth_sync"])
  ∧ (∀ (parse : String → Option MsgType) (ev : StorageEvent),
        handleStorageChange parse ev = []) := by
  constructor
  · simp [broadcast]
  · intro parse ev
    by_cases hk : ev.key = "auth_sync"
    · simp only [handleStorageChange, if_pos hk]
      cases hv : ev.newValue with
      | none => simp [hv]
      | some v =>
          simp only [hv]
          rcases hp : parse v with _ | m <;> simp [hp]
    · simp [handleStorageChange, hk]

end AuthApp

namespace AuthApp

/-- The component-local state of the Login page. -/
structure LoginPageState where
  serverError : Option String
  needsMFA : Bool
  mfaFactorId : Option String
deriving Repr, DecidableEq

/-- onSubmit from Login.tsx lines 29-60: clears the server error, calls
login unconditionally (the page never consults the rate limiter), then
routes on the discriminated result: needsVerification navigates to the
check-email screen, needsMFA with a factor id switches the page into the
MFA entry view, a provider error is recorded as the server error. -/
def onSubmit (env : LoginEnv) (email password : String) (st : TabState)
    (ps : LoginPageState) : LoginPageState × TabState × List Effect :=
  let ps1 := { ps with serverError := none }
  match login env email password st with
  | (.error e, st1, effs) => ({ ps1 with serverError := some e }, st1, effs)
  | (.ok r, st1, effs) =>
    if r.needsVerification then
      (ps1, st1, effs ++ [Effect.navigate "/auth/check-email"])
    else
      match r.needsMFA, r.factorId with
      | some true, some fid =>
          ({ ps1 with needsMFA := true, mfaFactorId := some fid }, st1, effs)
      | _, _ => (ps1, st1, effs)

/-- The fresh Login page state. -/
def loginPage0 : LoginPageState :=
  { serverError := none, needsMFA := false, mfaFactorId := none }

/-- The environment of a 6th wrong-password attempt: the provider rejects
the credentials. -/
def wrongPasswordEnv : LoginEnv :=
  { signInError := some "Invalid login credentials"
    signInUser := none
    signInSession := none
    totpFactors := []
    createSessionRow := none }

theorem login_always_calls_signIn (env : LoginEnv) (email password : String)
    (st : TabState) :
    Effect.signInWithPassword email password ∈ (login env email password st).2.2 := by
  unfold login
  rcases he : env.signInError with _ | e
  · rcases hu : env.signInUser with _ | u
    · simp
    · by_cases hc : u.emailConfirmedAt.isNone
      · simp [hc]
      · simp only [hc, Bool.false_eq_true, if_false]
        rcases hf : env.totpFactors.find? (fun f => f.status = "verified") with _ | f
        · rcases hr : env.createSessionRow with _ | rid <;> simp [hf, hr]
        · simp [hf]
  · simp

theorem onSubmit_always_calls_signIn (env : LoginEnv) (email password : String)
    (st : TabState) (ps : LoginPageState) :
    Effect.signInWithPassword email password ∈ (onSubmit env email password st ps).2.2 := by
  have hmem := login_always_calls_signIn env email password st
  unfold onSubmit
  rcases hl : login env email password st with ⟨res, st1, effs⟩
  rw [hl] at hmem
  simp only at hmem
  rcases res with e | r
  · simpa using hmem
  · by_cases hv : r.needsVerification
    · simp [hv, List.mem_append, hmem]
    · rcases hm : r.needsMFA with _ | b
      · simp [hv, hm, hmem]
      · rcases hb : b
        · simp [hv, hm, hb, hmem]
        · rcases hf : r.factorId with _ | fid <;> simp [hv, hm, hb, hf, hmem]

end AuthApp

namespace AuthApp

/-- C7 counterexample: with the identifier a@x.com locked out (5 failures,
the 5th at 4 ms, checked well inside the window at 10000 ms), the 6th
submission for that identifier still performs the signInWithPassword
call: Login.tsx never consults the rate limiter, so no local rejection
happens before the network call. -/
theorem lockout_no_local_reject_counterexample :
    (((recordFailures RateLimiter.empty "a@x.com" [0, 1, 2, 3, 4]).isLocked
        "a@x.com" 10000).1 = true)
  ∧ (Effect.signInWithPassword "a@x.com" "wrong6" ∈
      (onSubmit wrongPasswordEnv "a@x.com" "wrong6"
        { auth := initialState, currentSessionId := none } loginPage0).2.2) := by
  constructor
  · have h5 := recordFailures_five_attempts "a@x.com" 0 1 2 3 4
    rw [isLocked_true_of_le _ "a@x.com" 5 (4 + lockoutDuration) 10000 h5
      (by simp [lockoutDuration])]
  · simp [onSubmit, login, wrongPasswordEnv]

/-- C7 amended: while an identifier is inside the lockout window (the 5th
failure happened at t5 and strictly less than 15 minutes have passed),
isLocked reports true and getRemainingTime is positive and at most 900
seconds; but the submission is NOT rejected locally: onSubmit invokes
signInWithPassword on every run, whatever the limiter state, because the
login page never consults the rate limiter. -/
theorem lockout_remaining_time_no_local_reject (id : String)
    (t1 t2 t3 t4 t5 now : Nat) (hafter : t5 ≤ now)
    (h : now < t5 + lockoutDuration) :
    (((recordFailures RateLimiter.empty id [t1, t2, t3, t4, t5]).isLocked
        id now).1 = true)
  ∧ (0 < (recordFailures RateLimiter.empty id
        [t1, t2, t3, t4, t5]).getRemainingTime id now)
  ∧ ((recordFailures RateLimiter.empty id
        [t1, t2, t3, t4, t5]).getRemainingTime id now ≤ 900)
  ∧ (∀ (env : LoginEnv) (email password : String) (st : TabState)
        (ps : LoginPageState),
        Effect.signInWithPassword email password ∈
          (onSubmit env email password st ps).2.2) := by
  have h5 := recordFailures_five_attempts id t1 t2 t3 t4 t5
  have hrt : (recordFailures RateLimiter.empty id
      [t1, t2, t3, t4, t5]).getRemainingTime id now
      = (t5 + lockoutDuration - now + 999) / 1000 := by
    simp [RateLimiter.getRemainingTime, h5, Nat.not_le.mpr h]
  refine ⟨?_, ?_, ?_, ?_⟩
  · rw [isLocked_true_of_le _ id 5 (t5 + lockoutDuration) now h5 (Nat.le_of_lt h)]
  · rw [hrt]
    have h1 : 1000 ≤ t5 + lockoutDuration - now + 999 := by omega
    calc 0 < 1000 / 1000 := by norm_num
      _ ≤ (t5 + lockoutDuration - now + 999) / 1000 := Nat.div_le_div_right h1
  · rw [hrt]
    have hd : lockoutDuration = 900000 := rfl
    have h1 : t5 + lockoutDuration - now + 999 ≤ 900999 := by omega
    calc (t5 + lockoutDuration - now + 999) / 1000
        ≤ 900999 / 1000 := Nat.div_le_div_right h1
      _ = 900 := by norm_num
  · intro env email password st ps
    exact onSubmit_always_calls_signIn env email password st ps

/-- C7 amended witness: the concrete scenario of the spec, five wrong
attempts at 0..4 ms, the 6th submission at 10000 ms. -/
theorem lockout_remaining_time_no_local_reject_witness :
    (((recordFailures RateLimiter.empty "a@x.com" [0, 1, 2, 3, 4]).isLocked
        "a@x.com" 10000).1 = true)
  ∧ (0 < (recordFailures RateLimiter.empty "a@x.com"
        [0, 1, 2, 3, 4]).getRemainingTime "a@x.com" 10000)
  ∧ ((recordFailures RateLimiter.empty "a@x.com"
        [0, 1, 2, 3, 4]).getRemainingTime "a@x.com" 10000 ≤ 900)
  ∧ (Effect.signInWithPassword "a@x.com" "wrong6" ∈
      (onSubmit wrongPasswordEnv "a@x.com" "wrong6" authedTab loginPage0).2.2) := by
  have h := lockout_remaining_time_no_local_reject "a@x.com" 0 1 2 3 4 10000
    (by omega) (by simp [lockoutDuration])
  exact ⟨h.1, h.2.1, h.2.2.1,
    h.2.2.2 wrongPasswordEnv "a@x.com" "wrong6" authedTab loginPage0⟩

end AuthApp
